import Mathlib

/-!
# SynchDB change-event pipeline: shallow embedding and verification

This file embeds, in Lean 4, the parts of the SynchDB source
(`synchdb.c`, `replication_agent.c`) that the specification claims talk
about, and proves or refutes each claim against the embedding.

Conventions of the embedding:
* C strings become `String`; a C `NULL` result of a value-decoding
  function becomes an explicit constructor (`DecodeResult.noValue`).
* Machine integers become `Nat`/`Int`; where 64-bit overflow matters the
  reduction `% 2 ^ 64` is written explicitly.
* `elog(ERROR, ...)` (a non-local exit) becomes an explicit
  `fatal`/`Except.error`-style result.
* Hash tables built from fixed arrays become association lists searched
  with `find?`.
* The scenarios modelled here run a connector with no user rule file, so
  `objectMappingHash` and `transformExpressionHash` are `NULL` in the
  source; the corresponding lookups (`transform_object_name`,
  `transform_data_expression`) return `NULL` and are embedded as
  constant `none`.
-/

namespace SynchDB

/-- Remove every space character; used to compare SQL statements
"modulo whitespace" as the spec's end-to-end scenario demands. -/
def stripSpaces (s : String) : String :=
  String.mk (s.data.filter (fun c => c ≠ ' '))

/-! ## Connector supervisor state machine (synchdb.c) -/

/-- Connector states (`ConnectorState` in `synchdb.h`), the state machine
of the per-connector supervisor. -/
inductive ConnState where
  | undef
  | stopped
  | initializing
  | paused
  | syncing
  | parsingSt
  | convertingSt
  | executingSt
  | offsetUpdate
  deriving DecidableEq, Repr

/-- The per-connector shared-memory slot relevant to request handling:
the single-slot request mailbox (`req.reqstate`, `req.reqdata`), the
current connector state, and the offset persisted by
`dbz_engine_set_offset`. -/
structure ShmConnInfo where
  reqstate : ConnState
  reqdata : String
  state : ConnState
  offset : String
  deriving DecidableEq, Repr

/-- Outcomes of the three engine calls made by `processRequestInterrupt`
(`dbz_engine_stop`, `dbz_engine_start`, `dbz_engine_set_offset`); these
are external JVM calls, so their success is a parameter of the model. -/
structure EngineResults where
  stopOk : Bool
  startOk : Bool
  setOffsetOk : Bool
  deriving DecidableEq, Repr

/-- Result of one `processRequestInterrupt` call: the final shared slot,
the ordered list of `set_shm_connector_state` calls it made, and whether
the invalid-transition warning was emitted. -/
structure InterruptOutcome where
  shm : ShmConnInfo
  stateSets : List ConnState
  invalidWarned : Bool
  deriving DecidableEq, Repr

/-- `reset_shm_request_state` (synchdb.c:659-700): sets the request
state to `STATE_UNDEF` and zeroes the request data. -/
def reset_shm_request_state (s : ShmConnInfo) : ShmConnInfo :=
  { s with reqstate := ConnState.undef, reqdata := "" }

/-- `processRequestInterrupt` (synchdb.c:779-915).  A pause request is
honoured only from `STATE_SYNCING`, a resume request only from
`STATE_PAUSED`, an offset update only from `STATE_PAUSED` (passing
through `STATE_OFFSET_UPDATE` and back to `STATE_PAUSED`); any other
combination is ignored with a warning. Every path ends in
`reset_shm_request_state`. -/
def processRequestInterrupt (s : ShmConnInfo) (eng : EngineResults) :
    InterruptOutcome :=
  if s.reqstate = ConnState.undef then
    -- no requests, do nothing (the trailing reset still runs)
    { shm := reset_shm_request_state s, stateSets := [], invalidWarned := false }
  else if s.reqstate = ConnState.paused ∧ s.state = ConnState.syncing then
    if ¬ eng.stopOk then
      -- failed to stop dbz engine: reset the slot and return
      { shm := reset_shm_request_state s, stateSets := [], invalidWarned := false }
    else
      { shm := reset_shm_request_state { s with state := ConnState.paused },
        stateSets := [ConnState.paused], invalidWarned := false }
  else if s.reqstate = ConnState.syncing ∧ s.state = ConnState.paused then
    if ¬ eng.startOk then
      { shm := reset_shm_request_state s, stateSets := [], invalidWarned := false }
    else
      { shm := reset_shm_request_state { s with state := ConnState.syncing },
        stateSets := [ConnState.syncing], invalidWarned := false }
  else if s.reqstate = ConnState.offsetUpdate ∧ s.state = ConnState.paused then
    if ¬ eng.setOffsetOk then
      -- set_shm_connector_state(OFFSET_UPDATE); engine call fails;
      -- reset the slot; set_shm_connector_state(PAUSED); return
      { shm := reset_shm_request_state { s with state := ConnState.paused },
        stateSets := [ConnState.offsetUpdate, ConnState.paused],
        invalidWarned := false }
    else
      { shm := reset_shm_request_state
          { s with state := ConnState.paused, offset := s.reqdata },
        stateSets := [ConnState.offsetUpdate, ConnState.paused],
        invalidWarned := false }
  else
    -- unsupported request state combinations
    { shm := reset_shm_request_state s, stateSets := [], invalidWarned := true }

/-! ## synchdb_start_engine_bgw argument validation (synchdb.c:1663-1771) -/

/-- The eight SQL-level arguments of `synchdb_start_engine_bgw`; the
`port` argument arrives through `PG_GETARG_UINT32`. -/
structure StartEngineArgs where
  hostname : String
  port : Nat
  user : String
  pwd : String
  src_db : String
  dst_db : String
  table : String
  connector : String
  deriving DecidableEq, Repr

/-- The `ConnectionInfo` fields filled by `synchdb_start_engine_bgw`
before the background worker is registered. -/
structure ConnectionInfo where
  hostname : String
  port : Nat
  user : String
  pwd : String
  src_db : String
  dst_db : String
  table : String
  deriving DecidableEq, Repr

/-- `synchdb_start_engine_bgw` (synchdb.c:1663-1771), up to the point
where the background worker is registered: the sanity checks on the
input arguments, in source order, each raising an
`ERRCODE_INVALID_PARAMETER_VALUE` error with the given message; an empty
source database or table list is replaced by the literal "null". -/
def synchdb_start_engine_bgw (a : StartEngineArgs) :
    Except String ConnectionInfo :=
  if a.hostname = "" then Except.error "hostname cannot be empty"
  else if a.port = 0 ∨ 65535 < a.port then Except.error "invalid port number"
  else if a.user = "" then Except.error "username cannot be empty"
  else if a.pwd = "" then Except.error "password cannot be empty"
  else
    let src := if a.src_db = "" then "null" else a.src_db
    if a.dst_db = "" then Except.error "destination database cannot be empty"
    else
      let tbl := if a.table = "" then "null" else a.table
      if a.connector = "" then Except.error "connector type cannot be empty"
      else Except.ok
        { hostname := a.hostname, port := a.port, user := a.user,
          pwd := a.pwd, src_db := src, dst_db := a.dst_db, table := tbl }

/-! ## Base64 (src/common/base64.c as used via pg_b64_encode/pg_b64_decode) -/

/-- The base64 alphabet used by `pg_b64_encode`/`pg_b64_decode`. -/
def b64chars : List Char :=
  "ABCDEFGHIJKLMNOPQRSTUVWXYZabcdefghijklmnopqrstuvwxyz0123456789+/".data

/-- The character for a 6-bit group. -/
def b64char (n : Nat) : Char := b64chars.getD n '?'

/-- The 6-bit group for a character, `none` when the character is not in
the alphabet. -/
def b64index (c : Char) : Option Nat := b64chars.findIdx? (fun d => d == c)

/-- Encode a byte list in base64, three bytes to four characters, with
`=` padding, as `pg_b64_encode` does. -/
def b64EncodeBytes : List Nat → List Char
  | [] => []
  | [b1] => [b64char (b1 / 4), b64char (b1 % 4 * 16), '=', '=']
  | [b1, b2] =>
      [b64char (b1 / 4), b64char (b1 % 4 * 16 + b2 / 16),
       b64char (b2 % 16 * 4), '=']
  | b1 :: b2 :: b3 :: rest =>
      b64char (b1 / 4) :: b64char (b1 % 4 * 16 + b2 / 16) ::
      b64char (b2 % 16 * 4 + b3 / 64) :: b64char (b3 % 64) ::
      b64EncodeBytes rest

/-- `pg_b64_encode` on a byte list. -/
def pg_b64_encode (bs : List Nat) : String := String.mk (b64EncodeBytes bs)

/-- Decode base64 characters four at a time, honouring `=` padding;
malformed input yields `[]` (the caller then sees zero bytes). -/
def b64DecodeChars : List Char → List Nat
  | c1 :: c2 :: c3 :: c4 :: rest =>
      match b64index c1, b64index c2 with
      | some n1, some n2 =>
          let byte1 := n1 * 4 + n2 / 16
          if c3 = '=' then [byte1]
          else
            match b64index c3 with
            | some n3 =>
                let byte2 := n2 % 16 * 16 + n3 / 4
                if c4 = '=' then [byte1, byte2]
                else
                  match b64index c4 with
                  | some n4 =>
                      byte1 :: byte2 :: (n3 % 4 * 64 + n4) ::
                      b64DecodeChars rest
                  | none => []
            | none => []
      | _, _ => []
  | _ => []

/-- `pg_b64_decode` on a string. -/
def pg_b64_decode (s : String) : List Nat := b64DecodeChars s.data

/-! ## Byte-level helpers of the Value Decoder (replication_agent.c) -/

/-- `derive_value_from_byte` (replication_agent.c:813-834): fold the
big-endian bytes into a 64-bit accumulator, then sign-extend when the
most significant bit of the first byte is set.  The `% 2 ^ 64` mirrors
the width of the C `long`; the sign extension `value |= -(1L << len*8)`
amounts to subtracting `2 ^ (len*8)` for the 1-7 byte inputs for which
the C shift is well defined. -/
def derive_value_from_byte (bytes : List Nat) : Int :=
  let value : Nat := (bytes.foldl (fun acc b => acc * 256 + b) 0) % 2 ^ 64
  if 128 ≤ bytes.headD 0 then
    (value : Int) - 2 ^ (bytes.length * 8)
  else
    (value : Int)

/-- `reverse_byte_array` (replication_agent.c:836-849). -/
def reverse_byte_array (bytes : List Nat) : List Nat := bytes.reverse

/-- `byte_to_binary` (replication_agent.c:896-904): one byte to eight
binary digits, most significant bit first. -/
def byte_to_binary (b : Nat) : String :=
  String.mk ((List.range 8).map (fun j => if b / 2 ^ (7 - j) % 2 = 1 then '1' else '0'))

/-- `bytes_to_binary_string` (replication_agent.c:906-918). -/
def bytes_to_binary_string (bytes : List Nat) : String :=
  String.join (bytes.map byte_to_binary)

/-- `trim_leading_zeros` (replication_agent.c:851-872); an all-zero (or
empty) string becomes "0". -/
def trim_leading_zeros (s : String) : String :=
  let t := s.data.dropWhile (fun c => c = '0')
  if t.isEmpty then "0" else String.mk t

/-- A run of `n` zero characters. -/
def zeros (n : Nat) : String := String.mk (List.replicate n '0')

/-- `prepend_zeros` (replication_agent.c:874-893). -/
def prepend_zeros (s : String) (numZeros : Nat) : String := zeros numZeros ++ s

/-- `escapeSingleQuote` (replication_agent.c:956-1000): double every
embedded single quote; when `addquote` also wrap the whole value in
single quotes. -/
def escapeSingleQuote (s : String) (addquote : Bool) : String :=
  let q : Char := Char.ofNat 39
  let esc := String.mk
    (s.data.foldr (fun c acc => if c = q then q :: q :: acc else c :: acc) [])
  if addquote then "'" ++ esc ++ "'" else esc

/-- `bytearray_to_escaped_string` (replication_agent.c:792-811):
`'\xAABBCC'` with uppercase hex digits. -/
def bytearray_to_escaped_string (bytes : List Nat) : String :=
  let hex := fun (n : Nat) => "0123456789ABCDEF".data.getD n '?'
  "'\\x" ++
    String.mk (bytes.foldr (fun b acc => hex (b / 16) :: hex (b % 16) :: acc) []) ++
    "'"

/-! ## printf decimal formatting models -/

/-- Rounding division `a / b` to the nearest integer, ties to even
(the rounding glibc applies when converting to a decimal string). -/
def roundHalfEvenDiv (a b : Nat) : Nat :=
  let q := a / b
  let r := a % b
  if 2 * r < b then q
  else if b < 2 * r then q + 1
  else if q % 2 = 0 then q else q + 1

/-- Drop trailing zero characters of a digit string, keeping at least
one digit. -/
def stripTrailingZeros (s : String) : String :=
  let t := (s.data.reverse.dropWhile (fun c => c = '0')).reverse
  if t.isEmpty then "0" else String.mk t

/-- Model of C `snprintf(..., "%g", res)` with the default precision 6,
evaluated on the exact rational `value / 10 ^ scale`.  This matches the
C double computation whenever rounding the rational to six significant
decimal digits agrees with rounding its nearest double (true for the
magnitudes produced here, |value| < 2^53 and no tie at the 6th digit). -/
def snprintf_g (value : Int) (scale : Nat) : String :=
  if value = 0 then "0"
  else
    let a := value.natAbs
    let sign := if value < 0 then "-" else ""
    let d := (Nat.repr a).length
    let x0 : Int := (d : Int) - 1 - (scale : Int)
    let r0 := if d ≤ 6 then a * 10 ^ (6 - d) else roundHalfEvenDiv a (10 ^ (d - 6))
    let r := if r0 = 10 ^ 6 then 10 ^ 5 else r0
    let x : Int := if r0 = 10 ^ 6 then x0 + 1 else x0
    let m := stripTrailingZeros (Nat.repr r)
    if x < -4 ∨ 6 ≤ x then
      let mant := if m.length = 1 then m else m.take 1 ++ "." ++ m.drop 1
      let esign := if x < 0 then "-" else "+"
      let eabs := x.natAbs
      let estr := if eabs < 10 then "0" ++ Nat.repr eabs else Nat.repr eabs
      sign ++ mant ++ "e" ++ esign ++ estr
    else if 0 ≤ x then
      let xn := x.toNat
      if m.length ≤ xn + 1 then sign ++ m ++ zeros (xn + 1 - m.length)
      else sign ++ m.take (xn + 1) ++ "." ++ m.drop (xn + 1)
    else
      sign ++ "0." ++ zeros (x.natAbs - 1) ++ m

/-- Model of C `atoll` for the clean integer lexemes the decoder
receives: an optional minus sign followed by decimal digits (parsing
stops at the first non-digit). -/
def parseDigitsAcc : List Char → Nat → Nat
  | [], acc => acc
  | c :: rest, acc =>
      if c.isDigit then parseDigitsAcc rest (acc * 10 + (c.toNat - 48)) else acc

/-- `atoll` on the decoder's numeric lexemes. -/
def atoll (s : String) : Int :=
  match s.data with
  | '-' :: rest => -((parseDigitsAcc rest 0 : Nat) : Int)
  | l => ((parseDigitsAcc l 0 : Nat) : Int)

/-! ## Calendar conversion (gmtime model, UTC) -/

/-- Days since 1970-01-01 to civil (year, month, day), the standard
era-based algorithm; models glibc `gmtime`'s date part. -/
def civilFromDays (z0 : Int) : Int × Nat × Nat :=
  let z := z0 + 719468
  let era : Int := (if 0 ≤ z then z else z - 146096).tdiv 146097
  let doe : Nat := (z - era * 146097).toNat
  let yoe : Nat := (doe - doe / 1460 + doe / 36524 - doe / 146096) / 365
  let y : Int := (yoe : Int) + era * 400
  let doy : Nat := doe - (365 * yoe + yoe / 4 - yoe / 100)
  let mp : Nat := (5 * doy + 2) / 153
  let dd : Nat := doy - (153 * mp + 2) / 5 + 1
  let mm : Nat := if mp < 10 then mp + 3 else mp - 9
  (if mm ≤ 2 then y + 1 else y, mm, dd)

/-- glibc `gmtime` on seconds since the epoch (UTC):
(year, month, day, hour, minute, second). -/
def gmtime (t : Int) : Int × Nat × Nat × Nat × Nat × Nat :=
  let days := t.fdiv 86400
  let secs := (t.fmod 86400).toNat
  let (y, mo, dd) := civilFromDays days
  (y, mo, dd, secs / 3600, secs / 60 % 60, secs % 60)

/-- Zero-pad the decimal form of `n` on the left to `w` characters
(`%0wd` for the nonnegative values formatted here). -/
def padNum (w : Nat) (n : Nat) : String :=
  let s := Nat.repr n
  if s.length < w then zeros (w - s.length) ++ s else s

/-- `%04d` applied to a year held in an `Int` (all years formatted here
are positive). -/
def padYear (y : Int) : String :=
  if 0 ≤ y then padNum 4 y.toNat else "-" ++ padNum 4 y.natAbs

/-! ## processDataByType (replication_agent.c:2581-3124) -/

/-- The time representations of numeric-encoded temporal values
(`TimeRep` in the data model). -/
inductive TimeRep where
  | undef
  | date
  | time
  | microTime
  | nanoTime
  | timestamp
  | microTimestamp
  | nanoTimestamp
  | zonedTimestamp
  deriving DecidableEq, Repr

/-- The destination type oids `processDataByType` switches on
(`BOOLOID`, `INT8OID`, ..., `BYTEAOID`); `otherOid` stands for any oid
reaching the `default:` arm. -/
inductive PgOid where
  | boolOid
  | int8Oid
  | int2Oid
  | int4Oid
  | float8Oid
  | float4Oid
  | moneyOid
  | numericOid
  | bpcharOid
  | textOid
  | varcharOid
  | cstringOid
  | timestamptzOid
  | jsonbOid
  | uuidOid
  | varbitOid
  | bitOid
  | dateOid
  | timestampOid
  | timeOid
  | byteaOid
  | timetzOid
  | otherOid
  deriving DecidableEq, Repr

/-- The fields of `DBZ_DML_COLUMN_VALUE` consumed by
`processDataByType`. -/
structure DbzColVal where
  value : String
  datatype : PgOid
  scale : Int
  typemod : Int
  timerep : TimeRep
  deriving DecidableEq, Repr

/-- Result of `processDataByType`: `noValue` models the C `NULL`
return, `fatal` models `elog(ERROR, ...)` (which aborts the event). -/
inductive DecodeResult where
  | noValue
  | value (s : String)
  | fatal (msg : String)
  deriving DecidableEq, Repr

/-- ASCII lower-casing of one character (C `tolower` in the ASCII
range, the only range `strcasecmp` is applied to here). -/
def asciiToLower (c : Char) : Char :=
  if 65 ≤ c.toNat ∧ c.toNat ≤ 90 then Char.ofNat (c.toNat + 32) else c

/-- Case-insensitive string equality (`strcasecmp(...) == 0`). -/
def strcaseEq (a b : String) : Bool :=
  a.data.map asciiToLower == b.data.map asciiToLower

/-- The decimal-point placement block duplicated in the
`MONEYOID`/`NUMERICOID` arm (replication_agent.c:2625-2707): print the
decoded value with `%ld`; when the digit string is longer than the
scale the point is inserted `scale` digits from the right; when equal,
`"0."` is prefixed; when shorter, the value is divided as a double and
printed with `%g` into a buffer of `scale + 3` bytes (hence the
truncation to `scale + 2` characters). -/
def numericScaleFormat (value : Int) (scale : Nat) : String :=
  let buffer := Int.repr value
  if scale < buffer.length then
    buffer.take (buffer.length - scale) ++ "." ++ buffer.drop (buffer.length - scale)
  else if buffer.length = scale then
    "0." ++ buffer
  else
    (snprintf_g value scale).take (scale + 2)

/-- The `MONEYOID`/`NUMERICOID` arm of `processDataByType`
(replication_agent.c:2610-2710): base64-decode the raw value, derive
the signed integer with `derive_value_from_byte`, then place the
decimal point per the scale; Money substitutes scale 4 ("to account
for cents") when no positive scale was provided, while Numeric without
a positive scale stays the plain digit string. -/
def processNumericValue (inp : String) (scale0 : Int) (isMoney : Bool) : String :=
  let bytes := pg_b64_decode inp
  let value := derive_value_from_byte bytes
  if 0 < scale0 then numericScaleFormat value scale0.toNat
  else if isMoney then numericScaleFormat value 4
  else Int.repr value

/-- The `VARBITOID`/`BITOID` arm (replication_agent.c:2731-2767):
base64-decode, reverse the byte array, render binary digits, trim
leading zeros, left-pad with zeros up to `typemod` digits, and under
quoting wrap the digits as `'b...'` (an opening single quote, the
letter b, the digits, a closing single quote).  The C comparison
`strlen(tmp) < colval->typemod` converts `typemod` to `size_t`, so a
negative `typemod` compares as a huge unsigned number. -/
def processBitValue (inp : String) (typemod : Int) (addquote : Bool) : String :=
  let bytes := pg_b64_decode inp
  let digits0 := bytes_to_binary_string (reverse_byte_array bytes)
  let digits1 := trim_leading_zeros digits0
  let tm : Nat := (typemod % (2 ^ 64 : Int)).toNat
  let digits2 :=
    if digits1.length < tm then prepend_zeros digits1 (tm - digits1.length)
    else digits1
  if addquote then "'b" ++ digits2 ++ "'" else digits2

/-- The `DATEOID` arm (replication_agent.c:2768-2834).  `mktime` of
1970-01-01 00:00:00 is 0 under the UTC environment the decoder assumes
(the source notes the conversion is GMT). -/
def processDateValue (inp : String) (timerep : TimeRep) (addquote : Bool) :
    DecodeResult :=
  let input := atoll inp
  let days? : Option Int :=
    match timerep with
    | TimeRep.date => some input
    | TimeRep.timestamp => some (input.tdiv 86400000)
    | TimeRep.microTimestamp => some (input.tdiv 86400000000)
    | TimeRep.nanoTimestamp => some (input.tdiv 86400000000000)
    | _ => none
  match days? with
  | none => DecodeResult.fatal "no time representation available to process DATEOID value"
  | some days =>
      let (y, mo, dd, _, _, _) := gmtime (days * 86400)
      let datestr := padYear y ++ "-" ++ padNum 2 mo ++ "-" ++ padNum 2 dd
      if addquote then DecodeResult.value ("'" ++ datestr ++ "'")
      else DecodeResult.value datestr

/-- The `TIMESTAMPOID` arm (replication_agent.c:2835-2928): split the
input into seconds and sub-second remainder per the time
representation, convert the seconds with `gmtime`, and format
`YYYY-MM-DDTHH:MM:SS` plus `.%06ld` of the remainder when
`typemod > 0`.  `TIME_ZONEDTIMESTAMP` is already a string: under
quoting the `escapeSingleQuote` result is discarded (out stays NULL),
otherwise the input is passed through. -/
def processTimestampValue (inp : String) (timerep : TimeRep) (typemod : Int)
    (addquote : Bool) : DecodeResult :=
  let input := atoll inp
  match timerep with
  | TimeRep.zonedTimestamp =>
      if addquote then DecodeResult.noValue else DecodeResult.value inp
  | TimeRep.timestamp | TimeRep.microTimestamp | TimeRep.nanoTimestamp =>
      let divisor : Int :=
        match timerep with
        | TimeRep.timestamp => 1000
        | TimeRep.microTimestamp => 1000000
        | _ => 1000000000
      let seconds := input.tdiv divisor
      let remains := input.tmod divisor
      let (y, mo, dd, hh, mi, ss) := gmtime seconds
      let base := padYear y ++ "-" ++ padNum 2 mo ++ "-" ++ padNum 2 dd ++
        "T" ++ padNum 2 hh ++ ":" ++ padNum 2 mi ++ ":" ++ padNum 2 ss
      let timestamp :=
        if 0 < typemod then base ++ "." ++ padNum 6 remains.toNat else base
      if addquote then DecodeResult.value ("'" ++ timestamp ++ "'")
      else DecodeResult.value timestamp
  | _ =>
      DecodeResult.fatal "no time representation available to process TIMESTAMPOID value"

/-- The `TIMEOID` arm (replication_agent.c:2929-2991); the input is read
into an `unsigned long long`. -/
def processTimeValue (inp : String) (timerep : TimeRep) (typemod : Int)
    (addquote : Bool) : DecodeResult :=
  let input : Nat := ((atoll inp).emod (2 ^ 64)).toNat
  let divisor? : Option Nat :=
    match timerep with
    | TimeRep.time => some 1000
    | TimeRep.microTime => some 1000000
    | TimeRep.nanoTime => some 1000000000
    | _ => none
  match divisor? with
  | none => DecodeResult.fatal "no time representation available to process TIMEOID value"
  | some divisor =>
      let seconds := input / divisor
      let remains := input % divisor
      let base := padNum 2 (seconds / 3600 % 24) ++ ":" ++
        padNum 2 (seconds / 60 % 60) ++ ":" ++ padNum 2 (seconds % 60)
      let timestr := if 0 < typemod then base ++ "." ++ padNum 6 remains else base
      if addquote then DecodeResult.value ("'" ++ timestr ++ "'")
      else DecodeResult.value timestr

/-- `processDataByType` (replication_agent.c:2581-3124) for a connector
with no rule file (`transformExpressionHash` is NULL, so
`transform_data_expression` returns NULL and the transform block is
skipped).  An empty or (case-insensitively) `NULL` input returns the C
NULL pointer, embedded as `noValue`.  In the text-like arm and the
`default:` arm the quoted branch calls `escapeSingleQuote` but discards
its result, leaving `out` NULL — embedded faithfully as `noValue`. -/
def processDataByType (cv : DbzColVal) (addquote : Bool) : DecodeResult :=
  if cv.value = "" then DecodeResult.noValue
  else if strcaseEq cv.value "NULL" then DecodeResult.noValue
  else
    match cv.datatype with
    | PgOid.boolOid | PgOid.int8Oid | PgOid.int2Oid | PgOid.int4Oid
    | PgOid.float8Oid | PgOid.float4Oid =>
        -- no extra processing for numeric types
        DecodeResult.value cv.value
    | PgOid.moneyOid =>
        DecodeResult.value (processNumericValue cv.value cv.scale true)
    | PgOid.numericOid =>
        DecodeResult.value (processNumericValue cv.value cv.scale false)
    | PgOid.bpcharOid | PgOid.textOid | PgOid.varcharOid | PgOid.cstringOid
    | PgOid.timestamptzOid | PgOid.jsonbOid | PgOid.uuidOid =>
        -- the escapeSingleQuote result is not assigned to out
        if addquote then DecodeResult.noValue
        else DecodeResult.value cv.value
    | PgOid.varbitOid | PgOid.bitOid =>
        DecodeResult.value (processBitValue cv.value cv.typemod addquote)
    | PgOid.dateOid => processDateValue cv.value cv.timerep addquote
    | PgOid.timestampOid =>
        processTimestampValue cv.value cv.timerep cv.typemod addquote
    | PgOid.timeOid => processTimeValue cv.value cv.timerep cv.typemod addquote
    | PgOid.byteaOid =>
        let bytes := pg_b64_decode cv.value
        if addquote then DecodeResult.value (bytearray_to_escaped_string bytes)
        else DecodeResult.value (String.mk (bytes.map Char.ofNat))
    | PgOid.timetzOid | PgOid.otherOid =>
        -- default: treat as text; the quoted branch discards the
        -- escapeSingleQuote result exactly like the text-like arm
        if addquote then DecodeResult.noValue
        else DecodeResult.value cv.value

/-! ## DML value emission (convert2PGDML, replication_agent.c:3139-3386) -/

/-- The SQL literal `convert2PGDML` appends for one column value in SPI
mode (replication_agent.c:3171-3185): the processed data, or the
literal `null` when `processDataByType` returned NULL.  A `fatal`
decode aborts the event, embedded as `none`. -/
def dmlSqlLiteral (cv : DbzColVal) : Option String :=
  match processDataByType cv true with
  | DecodeResult.value d => some d
  | DecodeResult.noValue => some "null"
  | DecodeResult.fatal _ => none

/-- The tuple-field string `convert2PGDML` stores in heap-access mode
(replication_agent.c:3194-3214): the processed data, or the string
"NULL" when `processDataByType` returned NULL. -/
def dmlTupleValue (cv : DbzColVal) : Option String :=
  match processDataByType cv false with
  | DecodeResult.value d => some d
  | DecodeResult.noValue => some "NULL"
  | DecodeResult.fatal _ => none

/-- The null test the tuple handlers apply to a stored field value
(`!strcasecmp(colval->value, "NULL")`, replication_agent.c:167, 287):
a field equal to "NULL" case-insensitively sets the slot's null flag. -/
def tupleSlotIsNull (v : String) : Bool := strcaseEq v "NULL"

/-! ## DDL translation (replication_agent.c) -/

/-- `transform_object_name` (replication_agent.c:1041-1074) for a
connector with no rule file: `objectMappingHash` is NULL, so the
function returns NULL immediately. -/
def transform_object_name (_objid _objtype : String) : Option String := none

/-- Split a character list on a separator character (used to model
`strtok` tokenisation and `strstr` searches on the short ids handled
here). -/
def splitOnChar (sep : Char) : List Char → List (List Char)
  | [] => [[]]
  | c :: rest =>
      let r := splitOnChar sep rest
      if c = sep then [] :: r
      else
        match r with
        | [] => [[c]]
        | t :: ts => (c :: t) :: ts

/-- `splitIdString` (replication_agent.c:1687-1737): split a fully
qualified id on dots.  The dot count decides the shape; the components
come from `strtok`, which skips empty tokens, hence the filter. -/
def splitIdString (id : String) (usedb : Bool) :
    Option String × Option String × Option String :=
  let dotCount := id.data.count '.'
  let toks := ((splitOnChar '.' id.data).map (fun l => String.mk l)).filter
    (fun t => t ≠ "")
  if dotCount = 1 then
    if usedb then (toks.get? 0, none, toks.get? 1)
    else (none, toks.get? 0, toks.get? 1)
  else if dotCount = 2 then (toks.get? 0, toks.get? 1, toks.get? 2)
  else if dotCount = 0 then (none, none, some id)
  else (none, none, none)

/-- The columns of a parsed Debezium DDL event (`DBZ_DDL_COLUMN`),
restricted to the fields the CREATE emitter reads. -/
structure DbzDdlColumn where
  name : String
  typeName : String
  length : Int
  scale : Int
  optional : Bool
  autoIncremented : Bool
  defaultValueExpression : Option String
  deriving DecidableEq, Repr

/-- `mysql_defaultTypeMappings` (replication_agent.c:672-733): the
compiled-in MySQL type map, key = (source type name, autoIncremented),
value = (destination type name, fixed length or -1 or 0). -/
def mysql_defaultTypeMappings : List ((String × Bool) × (String × Int)) :=
  [(("INT", true), ("SERIAL", 0)),
   (("BIGINT", true), ("BIGSERIAL", 0)),
   (("SMALLINT", true), ("SMALLSERIAL", 0)),
   (("MEDIUMINT", true), ("SERIAL", 0)),
   (("ENUM", false), ("TEXT", 0)),
   (("SET", false), ("TEXT", 0)),
   (("BIGINT", false), ("BIGINT", 0)),
   (("BIGINT UNSIGNED", false), ("NUMERIC", -1)),
   (("NUMERIC UNSIGNED", false), ("NUMERIC", -1)),
   (("DEC", false), ("DECIMAL", -1)),
   (("DEC UNSIGNED", false), ("DECIMAL", -1)),
   (("DECIMAL UNSIGNED", false), ("DECIMAL", -1)),
   (("FIXED", false), ("DECIMAL", -1)),
   (("FIXED UNSIGNED", false), ("DECIMAL", -1)),
   (("BIT(1)", false), ("BOOLEAN", 0)),
   (("BIT", false), ("BIT", -1)),
   (("BOOL", false), ("BOOLEAN", -1)),
   (("DOUBLE", false), ("DOUBLE PRECISION", 0)),
   (("DOUBLE PRECISION", false), ("DOUBLE PRECISION", 0)),
   (("DOUBLE PRECISION UNSIGNED", false), ("DOUBLE PRECISION", 0)),
   (("DOUBLE UNSIGNED", false), ("DOUBLE PRECISION", 0)),
   (("REAL", false), ("REAL", 0)),
   (("REAL UNSIGNED", false), ("REAL", 0)),
   (("FLOAT", false), ("REAL", 0)),
   (("FLOAT UNSIGNED", false), ("REAL", 0)),
   (("INT", false), ("INT", 0)),
   (("INT UNSIGNED", false), ("BIGINT", 0)),
   (("INTEGER", false), ("INT", 0)),
   (("INTEGER UNSIGNED", false), ("BIGINT", 0)),
   (("MEDIUMINT", false), ("INT", 0)),
   (("MEDIUMINT UNSIGNED", false), ("INT", 0)),
   (("YEAR", false), ("INT", 0)),
   (("SMALLINT", false), ("SMALLINT", 0)),
   (("SMALLINT UNSIGNED", false), ("INT", 0)),
   (("TINYINT", false), ("SMALLINT", 0)),
   (("TINYINT UNSIGNED", false), ("SMALLINT", 0)),
   (("DATETIME", false), ("TIMESTAMP", -1)),
   (("TIMESTAMP", false), ("TIMESTAMPTZ", -1)),
   (("BINARY", false), ("BYTEA", 0)),
   (("VARBINARY", false), ("BYTEA", 0)),
   (("BLOB", false), ("BYTEA", 0)),
   (("MEDIUMBLOB", false), ("BYTEA", 0)),
   (("LONGBLOB", false), ("BYTEA", 0)),
   (("TINYBLOB", false), ("BYTEA", 0)),
   (("LONG VARCHAR", false), ("TEXT", -1)),
   (("LONGTEXT", false), ("TEXT", -1)),
   (("MEDIUMTEXT", false), ("TEXT", -1)),
   (("TINYTEXT", false), ("TEXT", -1)),
   (("JSON", false), ("JSONB", -1)),
   (("GEOMETRY", false), ("TEXT", -1)),
   (("GEOMETRYCOLLECTION", false), ("TEXT", -1)),
   (("GEOMCOLLECTION", false), ("TEXT", -1)),
   (("LINESTRING", false), ("TEXT", -1)),
   (("MULTILINESTRING", false), ("TEXT", -1)),
   (("MULTIPOINT", false), ("TEXT", -1)),
   (("MULTIPOLYGON", false), ("TEXT", -1)),
   (("POINT", false), ("TEXT", -1)),
   (("POLYGON", false), ("TEXT", -1))]

/-- `hash_search(..., HASH_FIND, ...)` on a datatype hash populated
from a fixed entry array: exact match on name and autoIncremented. -/
def datatypeHashFind (tbl : List ((String × Bool) × (String × Int)))
    (name : String) (autoInc : Bool) : Option (String × Int) :=
  (tbl.find? (fun e => e.1.1 == name && e.1.2 == autoInc)).map (fun e => e.2)

/-- Whether `needle` is a prefix of `hay`. -/
def charsPrefixOf : List Char → List Char → Bool
  | [], _ => true
  | _ :: _, [] => false
  | n :: ns, h :: hs => n == h && charsPrefixOf ns hs

/-- Whether `needle` occurs inside `hay`. -/
def charsInfixOf (needle : List Char) : List Char → Bool
  | [] => needle.isEmpty
  | h :: hs => charsPrefixOf needle (h :: hs) || charsInfixOf needle hs

/-- `strstr(hay, needle) != NULL`. -/
def strstrContains (hay needle : String) : Bool :=
  charsInfixOf needle.data hay.data

/-- `transformDDLColumns` (replication_agent.c:1740-1974), `TYPE_MYSQL`
arm, for a connector with no rule file (the column-name remap returns
NULL and the datatype hash holds only the compiled-in defaults).  The
per-column key `<id>.<col>.<type>` is looked up first, then the global
key; `BIT` of length 1 uses the `(1)`-suffixed key.  On a hit the
mapped type name is emitted and the column length is overridden unless
the mapped length is -1; on a miss the source type name is emitted
verbatim.  Returns the emitted fragment and the (possibly
length-updated) column. -/
def transformDDLColumns_mysql (id : String) (col : DbzDdlColumn)
    (datatypeonly : Bool) : String × DbzDdlColumn :=
  let colNameObjId := id ++ "." ++ col.name
  let bit1 := strcaseEq col.typeName "BIT" ∧ col.length = 1
  let fqKey :=
    if bit1 then colNameObjId ++ "." ++ col.typeName ++ "(" ++ Int.repr col.length ++ ")"
    else colNameObjId ++ "." ++ col.typeName
  let entry? :=
    match datatypeHashFind mysql_defaultTypeMappings fqKey col.autoIncremented with
    | some e => some e
    | none =>
        let gKey :=
          if bit1 then col.typeName ++ "(" ++ Int.repr col.length ++ ")"
          else col.typeName
        datatypeHashFind mysql_defaultTypeMappings gKey col.autoIncremented
  match entry? with
  | none =>
      (if datatypeonly then " " ++ col.typeName ++ " "
       else " " ++ col.name ++ " " ++ col.typeName ++ " ", col)
  | some (pgName, pgLen) =>
      ((if datatypeonly then " " ++ pgName ++ " "
        else " " ++ col.name ++ " " ++ pgName ++ " "),
       if pgLen ≠ -1 then { col with length := pgLen } else col)

/-- `MaxAttrSize` (PostgreSQL `htup_details.h`): 10 * 1024 * 1024. -/
def MaxAttrSize : Int := 10485760

/-- One iteration of the CREATE column loop of `convert2PGDDL`
(replication_agent.c:2192-2233): type fragment, `(len)` or
`(len, scale)` when positive (capping `len` at `MaxAttrSize`), a CHECK
constraint for UNSIGNED source types, NOT NULL for non-optional
columns, DEFAULT for non-auto-incremented defaults, then a comma. -/
def appendColumnClause (id : String) (acc : String) (col : DbzDdlColumn) : String :=
  let (piece, col2) := transformDDLColumns_mysql id col false
  let acc := acc ++ piece
  let acc :=
    if 0 < col2.length ∧ 0 < col2.scale then
      acc ++ "(" ++ Int.repr col2.length ++ ", " ++ Int.repr col2.scale ++ ") "
    else acc
  let acc :=
    if 0 < col2.length ∧ col2.scale = 0 then
      acc ++ "(" ++
        Int.repr (if MaxAttrSize < col2.length then MaxAttrSize else col2.length) ++
        ") "
    else acc
  let acc :=
    if strstrContains col2.typeName "UNSIGNED" then
      acc ++ "CHECK (" ++ col2.name ++ " >= 0) "
    else acc
  let acc := if ¬ col2.optional then acc ++ "NOT NULL " else acc
  let acc :=
    match col2.defaultValueExpression with
    | some dexp =>
        if 0 < dexp.length ∧ ¬ col2.autoIncremented then
          acc ++ "DEFAULT " ++ dexp ++ " "
        else acc
    | none => acc
  acc ++ ","

/-- `populate_primary_keys` (replication_agent.c:1081-1194) on the
parsed list of primary-key column names: nothing when the list is
empty, otherwise `, PRIMARY KEY(a,b,...)` (or `, ADD PRIMARY KEY(...)`
when altering), each name first passed through the column-name remap. -/
def populate_primary_keys (id : String) (pkNames : List String)
    (alter : Bool) : String :=
  match pkNames with
  | [] => ""
  | ns =>
      let names := ns.map (fun n =>
        (transform_object_name (id ++ "." ++ n) "column").getD n)
      (if alter then ", ADD PRIMARY KEY(" else ", PRIMARY KEY(") ++
        String.intercalate "," names ++ ")"

/-- The CREATE arm of `convert2PGDDL` (replication_agent.c:2112-2246)
for a MySQL connector with no rule file.  With no object-name mapping,
`db.table` ids put the database as destination schema; a missing
database or table part is a fatal parse error (`none`).  The emitted
statement is `CREATE SCHEMA IF NOT EXISTS <schema>; CREATE TABLE IF NOT
EXISTS <schema>.<table> ( <columns> <pk_clause>);` with the trailing
comma of the column list removed. -/
def convert2PGDDL_CREATE_mysql (id : String) (cols : List DbzDdlColumn)
    (pkNames : List String) : Option String :=
  let header? : Option String :=
    match transform_object_name id "table" with
    | some mapped =>
        match splitIdString mapped false with
        | (_, some schema, some table) =>
            some ("CREATE SCHEMA IF NOT EXISTS " ++ schema ++ "; " ++
                  "CREATE TABLE IF NOT EXISTS " ++ schema ++ "." ++ table ++ " (")
        | (_, none, some table) =>
            some ("CREATE TABLE IF NOT EXISTS " ++ table ++ " (")
        | _ => none
    | none =>
        match splitIdString id true with
        | (some db, _, some table) =>
            some ("CREATE SCHEMA IF NOT EXISTS " ++ db ++ "; " ++
                  "CREATE TABLE IF NOT EXISTS " ++ db ++ "." ++ table ++ " (")
        | _ => none
  match header? with
  | none => none
  | some header =>
      let body := cols.foldl (appendColumnClause id) header
      let body := body.dropRight 1
      some (body ++ populate_primary_keys id pkNames false ++ ");")

/-! ## Tuple-mode update application (replication_agent.c) -/

/-- A destination row in the tuple path: the positional field strings
of a stored tuple ("NULL" marks a null field, as in the slot-filling
loops). -/
abbrev TupleRow := List String

/-- Result of `synchdb_handle_update`: the destination table contents
after the call, the return code, whether the transaction committed, and
the warning text emitted, if any. -/
structure DmlApplyResult where
  table : List TupleRow
  ret : Int
  committed : Bool
  warning : Option String
  deriving DecidableEq, Repr

/-- The old-tuple search of `synchdb_handle_update`
(replication_agent.c:305-324): when the relation has a primary-key or
identity index (`GetRelationIdentityOrPK`), the live row is located
through `RelationFindReplTupleByIndex` on the index columns; otherwise
`RelationFindReplTupleSeq` scans for a row equal to the full
before-image.  Both destination primitives are modelled as a first
match over the table contents. -/
def locateOldTuple (pkCols : Option (List Nat)) (table : List TupleRow)
    (before : TupleRow) : Option Nat :=
  match pkCols with
  | some cols =>
      table.findIdx? (fun r => cols.all (fun c => r.getD c "" == before.getD c ""))
  | none => table.findIdx? (fun r => r == before)

/-- `synchdb_handle_update` (replication_agent.c:224-396): build the
before-image tuple, locate the live row by index or sequential scan; on
a hit replace it with the after-image via `ExecSimpleRelationUpdate`;
on a miss emit the warning "tuple to update not found" and set the
return code to -1.  Either way the function reaches
`CommitTransactionCommand` and commits. -/
def synchdb_handle_update (pkCols : Option (List Nat)) (table : List TupleRow)
    (before afterRow : TupleRow) : DmlApplyResult :=
  match locateOldTuple pkCols table before with
  | some idx =>
      { table := table.set idx afterRow, ret := 0, committed := true,
        warning := none }
  | none =>
      { table := table, ret := -1, committed := true,
        warning := some "tuple to update not found" }

/-- The execute step of `fc_processDBZChangeEvent` for a DML event
(replication_agent.c:4990-5009): the state is set to `STATE_EXECUTING`,
`ra_executePGDML` runs, and whether it fails (nonzero) or succeeds the
connector state is set back to `STATE_SYNCING`; the event returns -1 on
failure and 0 on success. -/
def fc_executeDMLStep (ret : Int) : ConnState × Int :=
  if ret ≠ 0 then (ConnState.syncing, -1) else (ConnState.syncing, 0)

/-! ## Spec-side big-endian two's-complement encoder -/

/-- The unsigned value of a big-endian byte string (the fold
`derive_value_from_byte` computes before sign extension). -/
def bytesBEValue (bs : List Nat) : Nat :=
  bs.foldl (fun a b => a * 256 + b) 0

/-- Fixed-width big-endian byte rendering of a natural number. -/
def beBytes : Nat → Nat → List Nat
  | 0, _ => []
  | w + 1, n => beBytes w (n / 256) ++ [n % 256]

/-- Minimal signed big-endian width of a nonnegative value (the least
`k ≥ 1` with `v < 2 ^ (8 * k - 1)`), computed with enough fuel for the
1-16 byte range the decoder accepts. -/
def tcWidthNonnegAux : Nat → Nat → Nat
  | 0, _ => 16
  | fuel + 1, v => if v < 128 then 1 else tcWidthNonnegAux fuel (v / 256) + 1

/-- Minimal signed big-endian width of a nonnegative value. -/
def tcWidthNonneg (v : Nat) : Nat := tcWidthNonnegAux 16 v

/-- Minimal signed big-endian width of a negative value (the least
`k ≥ 1` with `-2 ^ (8 * k - 1) ≤ v`), computed with enough fuel for the
1-16 byte range the decoder accepts. -/
def tcWidthNegAux : Nat → Int → Nat
  | 0, _ => 16
  | fuel + 1, v =>
      if -(2 ^ 7 : Int) ≤ v then 1 else tcWidthNegAux fuel (v.fdiv 256) + 1

/-- Modelled from the spec: the upstream producer's big-endian
two's-complement encoding of a numeric value — the `encode` of the
round-trip law "for any numeric value `v` with scale `s` encoded as
base64 bigendian, `decode(encode(v, s), s) == v`" (the producer itself
is not part of this repository).  A value is rendered with its minimal
signed byte width; a negative value `v` of width `k` is rendered as the
bytes of `v + 2 ^ (8 * k)`. -/
def twosComplementBytes (v : Int) : List Nat :=
  if 0 ≤ v then
    beBytes (tcWidthNonneg v.toNat) v.toNat
  else
    let k := tcWidthNegAux 16 v
    beBytes k (v + 2 ^ (8 * k)).toNat

/-- Modelled from the spec: base64 of the big-endian two's-complement
bytes of `v` — the string the decoder's Numeric/Money arm receives. -/
def encodeBase64BigEndian (v : Int) : String :=
  pg_b64_encode (twosComplementBytes v)

/-- The columns of end-to-end scenario 1 ("MySQL create"): the parsed
`payload.tableChanges.0.table.columns` of the event (absent `length`
and `scale` parse to 0, absent `defaultValueExpression` stays NULL). -/
def scenario1Columns : List DbzDdlColumn :=
  [{ name := "order_number", typeName := "INT", length := 0, scale := 0,
     optional := false, autoIncremented := true, defaultValueExpression := none },
   { name := "quantity", typeName := "INT", length := 0, scale := 0,
     optional := false, autoIncremented := false, defaultValueExpression := none },
   { name := "product", typeName := "VARCHAR", length := 64, scale := 0,
     optional := true, autoIncremented := false, defaultValueExpression := none }]

/-- The digit string the Bit/Varbit arm produces for a decoded byte
array: binary digits of the reversed array, leading zeros trimmed,
left-padded with zeros up to `tm` digits. -/
def bitDigitsOf (bs : List Nat) (tm : Nat) : String :=
  let d := trim_leading_zeros (bytes_to_binary_string bs.reverse)
  if d.length < tm then zeros (tm - d.length) ++ d else d

/-! ## Helper lemmas -/

theorem b64index_b64char : ∀ n < 64, b64index (b64char n) = some n := by
  decide

theorem b64char_ne_pad : ∀ n < 64, b64char n ≠ '=' := by
  decide

theorem b64DecodeChars_encodeBytes :
    ∀ bs : List Nat, (∀ b ∈ bs, b < 256) →
      b64DecodeChars (b64EncodeBytes bs) = bs
  | [], _ => rfl
  | [b1], h => by
      have hb : b1 < 256 := h b1 (by simp)
      have e1 := b64index_b64char (b1 / 4) (by omega)
      have e2 := b64index_b64char (b1 % 4 * 16) (by omega)
      simp only [b64EncodeBytes, b64DecodeChars, e1, e2, eq_self_iff_true,
        if_true, List.cons.injEq, and_true]
      omega
  | [b1, b2], h => by
      have hb1 : b1 < 256 := h b1 (by simp)
      have hb2 : b2 < 256 := h b2 (by simp)
      have e1 := b64index_b64char (b1 / 4) (by omega)
      have e2 := b64index_b64char (b1 % 4 * 16 + b2 / 16) (by omega)
      have e3 := b64index_b64char (b2 % 16 * 4) (by omega)
      have ne3 := b64char_ne_pad (b2 % 16 * 4) (by omega)
      simp only [b64EncodeBytes, b64DecodeChars, e1, e2, e3, if_neg ne3,
        eq_self_iff_true, if_true, List.cons.injEq, and_true]
      omega
  | b1 :: b2 :: b3 :: rest, h => by
      have hb1 : b1 < 256 := h b1 (by simp)
      have hb2 : b2 < 256 := h b2 (by simp)
      have hb3 : b3 < 256 := h b3 (by simp)
      have ih := b64DecodeChars_encodeBytes rest
        (fun x hx => h x (by simp [hx]))
      have e1 := b64index_b64char (b1 / 4) (by omega)
      have e2 := b64index_b64char (b1 % 4 * 16 + b2 / 16) (by omega)
      have e3 := b64index_b64char (b2 % 16 * 4 + b3 / 64) (by omega)
      have e4 := b64index_b64char (b3 % 64) (by omega)
      have ne3 := b64char_ne_pad (b2 % 16 * 4 + b3 / 64) (by omega)
      have ne4 := b64char_ne_pad (b3 % 64) (by omega)
      simp only [b64EncodeBytes, b64DecodeChars, e1, e2, e3, e4, if_neg ne3,
        if_neg ne4, ih, List.cons.injEq, and_true]
      refine ⟨by omega, by omega, by omega⟩

theorem pg_b64_roundtrip (bs : List Nat) (h : ∀ b ∈ bs, b < 256) :
    pg_b64_decode (pg_b64_encode bs) = bs := by
  simpa [pg_b64_decode, pg_b64_encode] using b64DecodeChars_encodeBytes bs h

theorem foldl_bytes_lt : ∀ (bs : List Nat), (∀ b ∈ bs, b < 256) →
    ∀ acc : Nat, bs.foldl (fun a b => a * 256 + b) acc < (acc + 1) * 256 ^ bs.length
  | [], _, acc => by simp
  | b :: rest, h, acc => by
      have hb : b < 256 := h b (by simp)
      have hrec := foldl_bytes_lt rest (fun x hx => h x (by simp [hx]))
        (acc * 256 + b)
      calc (b :: rest).foldl (fun a b => a * 256 + b) acc
          = rest.foldl (fun a b => a * 256 + b) (acc * 256 + b) := by
            simp [List.foldl_cons]
        _ < (acc * 256 + b + 1) * 256 ^ rest.length := hrec
        _ ≤ ((acc + 1) * 256) * 256 ^ rest.length :=
            Nat.mul_le_mul_right _ (by omega)
        _ = (acc + 1) * 256 ^ (b :: rest).length := by
            rw [List.length_cons, pow_succ]
            ring

theorem bytesBEValue_lt (bs : List Nat) (h : ∀ b ∈ bs, b < 256) :
    bytesBEValue bs < 256 ^ bs.length := by
  have := foldl_bytes_lt bs h 0
  simpa [bytesBEValue] using this

theorem derive_value_msb_clear (bs : List Nat) (h : ∀ b ∈ bs, b < 256)
    (hlen : bs.length ≤ 8) (hmsb : bs.headD 0 < 128) :
    derive_value_from_byte bs = ((bytesBEValue bs : Nat) : Int) := by
  have h2 : bs.foldl (fun a b => a * 256 + b) 0 < 2 ^ 64 := by
    calc bs.foldl (fun a b => a * 256 + b) 0
        < 256 ^ bs.length := bytesBEValue_lt bs h
      _ ≤ 256 ^ 8 := Nat.pow_le_pow_right (by norm_num) hlen
      _ = 2 ^ 64 := by norm_num
  simp only [derive_value_from_byte, bytesBEValue]
  rw [Nat.mod_eq_of_lt h2, if_neg (by omega)]

theorem Int_repr_natCast (n : Nat) : Int.repr ((n : Nat) : Int) = Nat.repr n := rfl

theorem beBytes_length : ∀ (w n : Nat), (beBytes w n).length = w
  | 0, _ => rfl
  | w + 1, n => by
      simp [beBytes, beBytes_length w]

theorem beBytes_lt : ∀ (w n : Nat), ∀ b ∈ beBytes w n, b < 256
  | 0, _ => by simp [beBytes]
  | w + 1, n => by
      simp only [beBytes, List.mem_append, List.mem_singleton]
      rintro b (hb | rfl)
      · exact beBytes_lt w (n / 256) b hb
      · omega

theorem foldl_beBytes : ∀ (w n acc : Nat), n < 256 ^ w →
    (beBytes w n).foldl (fun a b => a * 256 + b) acc = acc * 256 ^ w + n
  | 0, n, acc, h => by
      simp only [beBytes, List.foldl_nil, pow_zero]
      omega
  | w + 1, n, acc, h => by
      have hdiv : n / 256 < 256 ^ w := by
        rw [Nat.div_lt_iff_lt_mul (by norm_num)]
        calc n < 256 ^ (w + 1) := h
          _ = 256 ^ w * 256 := by rw [pow_succ]
      simp only [beBytes, List.foldl_append, List.foldl_cons, List.foldl_nil]
      rw [foldl_beBytes w (n / 256) acc hdiv]
      have hmod : n / 256 * 256 + n % 256 = n := by omega
      calc (acc * 256 ^ w + n / 256) * 256 + n % 256
          = acc * (256 ^ w * 256) + (n / 256 * 256 + n % 256) := by ring
        _ = acc * 256 ^ (w + 1) + n := by rw [hmod, pow_succ]

theorem bytesBEValue_beBytes (w n : Nat) (h : n < 256 ^ w) :
    bytesBEValue (beBytes w n) = n := by
  have := foldl_beBytes w n 0 h
  simpa [bytesBEValue] using this

theorem beBytes_headD : ∀ (w n : Nat), n < 256 ^ (w + 1) →
    (beBytes (w + 1) n).headD 0 = n / 256 ^ w
  | 0, n, h => by
      simp only [beBytes, List.nil_append, List.headD_cons, pow_zero,
        Nat.div_one]
      have : n < 256 := by simpa using h
      omega
  | w + 1, n, h => by
      have hdiv : n / 256 < 256 ^ (w + 1) := by
        rw [Nat.div_lt_iff_lt_mul (by norm_num)]
        calc n < 256 ^ (w + 2) := h
          _ = 256 ^ (w + 1) * 256 := by rw [pow_succ]
      have ih := beBytes_headD w (n / 256) hdiv
      cases hb : beBytes (w + 1) (n / 256) with
      | nil =>
          exfalso
          have := beBytes_length (w + 1) (n / 256)
          rw [hb] at this
          simp at this
      | cons a l =>
          have hexp : beBytes (w + 1 + 1) n =
              beBytes (w + 1) (n / 256) ++ [n % 256] := rfl
          rw [hexp, hb, List.cons_append, List.headD_cons]
          rw [hb, List.headD_cons] at ih
          rw [ih, Nat.div_div_eq_div_mul]
          congr 1
          rw [pow_succ]
          ring

theorem tcWidthNonnegAux_spec : ∀ (fuel v : Nat), v < 2 ^ (8 * fuel + 7) →
    0 < tcWidthNonnegAux (fuel + 1) v ∧
    v < 2 ^ (8 * tcWidthNonnegAux (fuel + 1) v - 1)
  | 0, v, h => by
      have h128 : v < 128 := by
        have he : (2 : Nat) ^ (8 * 0 + 7) = 128 := by norm_num
        omega
      have haux : tcWidthNonnegAux 1 v = 1 := by
        show (if v < 128 then 1 else tcWidthNonnegAux 0 (v / 256) + 1) = 1
        rw [if_pos h128]
      rw [haux]
      exact ⟨by norm_num, by simpa using h128⟩
  | fuel + 1, v, h => by
      by_cases h128 : v < 128
      · have haux : tcWidthNonnegAux (fuel + 1 + 1) v = 1 := by
          show (if v < 128 then 1
                else tcWidthNonnegAux (fuel + 1) (v / 256) + 1) = 1
          rw [if_pos h128]
        rw [haux]
        exact ⟨by norm_num, by simpa using h128⟩
      · have haux : tcWidthNonnegAux (fuel + 1 + 1) v =
            tcWidthNonnegAux (fuel + 1) (v / 256) + 1 := by
          show (if v < 128 then 1
                else tcWidthNonnegAux (fuel + 1) (v / 256) + 1) = _
          rw [if_neg h128]
        have hdiv : v / 256 < 2 ^ (8 * fuel + 7) := by
          rw [Nat.div_lt_iff_lt_mul (by norm_num)]
          have hexp2 : 8 * fuel + 7 + 8 = 8 * (fuel + 1) + 7 := by omega
          calc v < 2 ^ (8 * (fuel + 1) + 7) := h
            _ = 2 ^ (8 * fuel + 7) * 256 := by
                rw [← hexp2, pow_add]
                norm_num
        obtain ⟨hpos, hlt⟩ := tcWidthNonnegAux_spec fuel (v / 256) hdiv
        rw [haux]
        refine ⟨by omega, ?_⟩
        have h1 : v < (v / 256 + 1) * 256 := by omega
        have h2 : (v / 256 + 1) * 256 ≤
            2 ^ (8 * tcWidthNonnegAux (fuel + 1) (v / 256) - 1) * 256 :=
          Nat.mul_le_mul_right _ (by omega)
        have hexpo : 8 * tcWidthNonnegAux (fuel + 1) (v / 256) - 1 + 8 =
            8 * (tcWidthNonnegAux (fuel + 1) (v / 256) + 1) - 1 := by omega
        have h3 : 2 ^ (8 * tcWidthNonnegAux (fuel + 1) (v / 256) - 1) * 256 =
            2 ^ (8 * (tcWidthNonnegAux (fuel + 1) (v / 256) + 1) - 1) := by
          rw [← hexpo, pow_add]
          norm_num
        calc v < (v / 256 + 1) * 256 := h1
          _ ≤ 2 ^ (8 * tcWidthNonnegAux (fuel + 1) (v / 256) - 1) * 256 := h2
          _ = 2 ^ (8 * (tcWidthNonnegAux (fuel + 1) (v / 256) + 1) - 1) := h3

theorem tcWidthNonnegAux_le : ∀ (fuel k v : Nat), k ≤ fuel →
    v < 2 ^ (8 * k + 7) → tcWidthNonnegAux (fuel + 1) v ≤ k + 1
  | fuel, 0, v, _, h => by
      have h128 : v < 128 := by
        have he : (2 : Nat) ^ (8 * 0 + 7) = 128 := by norm_num
        omega
      show (if v < 128 then 1 else tcWidthNonnegAux fuel (v / 256) + 1) ≤ 0 + 1
      rw [if_pos h128]
  | 0, k + 1, v, hk, h => by omega
  | fuel + 1, k + 1, v, hk, h => by
      show (if v < 128 then 1
            else tcWidthNonnegAux (fuel + 1) (v / 256) + 1) ≤ k + 1 + 1
      split
      · omega
      · have hdiv : v / 256 < 2 ^ (8 * k + 7) := by
          rw [Nat.div_lt_iff_lt_mul (by norm_num)]
          have hexp2 : 8 * k + 7 + 8 = 8 * (k + 1) + 7 := by omega
          calc v < 2 ^ (8 * (k + 1) + 7) := h
            _ = 2 ^ (8 * k + 7) * 256 := by
                rw [← hexp2, pow_add]
                norm_num
        have := tcWidthNonnegAux_le fuel k (v / 256) (by omega) hdiv
        omega

theorem twosComplementBytes_nonneg (v : Nat) :
    twosComplementBytes (v : Int) = beBytes (tcWidthNonneg v) v := by
  simp [twosComplementBytes, Int.toNat_natCast]

theorem processNumericValue_encode (bs : List Nat)
    (h : ∀ b ∈ bs, b < 256) (hlen : bs.length ≤ 8) (hmsb : bs.headD 0 < 128)
    (scale0 : Int) (isMoney : Bool) :
    processNumericValue (pg_b64_encode bs) scale0 isMoney =
      (if 0 < scale0 then numericScaleFormat (bytesBEValue bs) scale0.toNat
       else if isMoney then numericScaleFormat (bytesBEValue bs) 4
       else Nat.repr (bytesBEValue bs)) := by
  simp only [processNumericValue]
  rw [pg_b64_roundtrip bs h, derive_value_msb_clear bs h hlen hmsb]
  rfl

/-! ## Claim theorems -/

set_option maxRecDepth 8000 in
/-- C1: for the MySQL Create event of end-to-end scenario 1 (source
table id "inv.orders", primary key ["order_number"], columns
order_number INT not-optional auto-incremented, quantity INT
not-optional, product VARCHAR(64) optional), with no user rules loaded,
the DDL translator emits exactly (modulo whitespace) `CREATE SCHEMA IF
NOT EXISTS inv; CREATE TABLE IF NOT EXISTS inv.orders ( order_number
SERIAL NOT NULL , quantity INT NOT NULL , product VARCHAR(64) , PRIMARY
KEY(order_number));`. -/
theorem mysql_create_scenario_ddl :
    (convert2PGDDL_CREATE_mysql "inv.orders" scenario1Columns
        ["order_number"]).map stripSpaces =
      some (stripSpaces ("CREATE SCHEMA IF NOT EXISTS inv; " ++
        "CREATE TABLE IF NOT EXISTS inv.orders ( order_number SERIAL NOT NULL , " ++
        "quantity INT NOT NULL , product VARCHAR(64) , " ++
        "PRIMARY KEY(order_number));")) := by
  rfl

/-- C2 (code bug): for text-like destinations the decoder passes the
raw value through unchanged when quoting is not requested, and
`escapeSingleQuote` indeed builds the single-quoted, quote-doubled
literal — but the quoted branch of `processDataByType` discards the
`escapeSingleQuote` result (replication_agent.c:2722, the return value
is never assigned to `out`), so every quoted text-like value decodes to
NULL and is emitted as the SQL literal `null`. -/
theorem text_destination_quoting_drops_value :
    processDataByType
        { value := "abc", datatype := PgOid.textOid, scale := -1,
          typemod := -1, timerep := TimeRep.undef } false =
      DecodeResult.value "abc" ∧
    processDataByType
        { value := "abc", datatype := PgOid.textOid, scale := -1,
          typemod := -1, timerep := TimeRep.undef } true =
      DecodeResult.noValue ∧
    dmlSqlLiteral
        { value := "abc", datatype := PgOid.textOid, scale := -1,
          typemod := -1, timerep := TimeRep.undef } = some "null" ∧
    escapeSingleQuote "O'Brien" true = "'O''Brien'" ∧
    processDataByType
        { value := "O'Brien", datatype := PgOid.varcharOid, scale := -1,
          typemod := -1, timerep := TimeRep.undef } true =
      DecodeResult.noValue := by
  decide

/-- C3 (counterexample): decoding base64 "/w==" (the single byte 0xFF,
the two's-complement integer -1) with scale 2 produces "0.-2"-style
garbage "0.-1", not the decimal string -0.01 the claim's rule
prescribes: the `"0.%s"` branch fires on `strlen("-1") == scale`
counting the minus sign as a digit. -/
theorem numeric_negative_scale_eq_cex :
    processDataByType
        { value := "/w==", datatype := PgOid.numericOid, scale := 2,
          typemod := 0, timerep := TimeRep.undef } false =
      DecodeResult.value "0.-1" ∧
    "0.-1" ≠ "-0.01" := by
  decide

/-- C3 (amended): for a nonnegative decoded integer whose decimal digit
count is at least the scale, the Numeric/Money arm decodes the base64
big-endian bytes to that integer and places the decimal point `scale`
digits from the right (prefixing "0." when the counts are equal); a
Money value with no positive scale uses the implicit scale 4; in
particular raw_value "AX0=" (bytes 0x01 0x7D = 381) with scale 2
decodes to "3.81".  (Negative values and values with fewer digits than
the scale are excluded: the former hit the "0.%s" slip of the
counterexample, the latter go through C's `%g` double formatting.) -/
theorem numeric_decode_point_placement (bs : List Nat) (s : Nat)
    (h : ∀ b ∈ bs, b < 256) (hlen : bs.length ≤ 8) (hmsb : bs.headD 0 < 128)
    (hs : 1 ≤ s) (hd : s ≤ (Nat.repr (bytesBEValue bs)).length) :
    (processNumericValue (pg_b64_encode bs) (s : Int) false =
       if s < (Nat.repr (bytesBEValue bs)).length then
         (Nat.repr (bytesBEValue bs)).take ((Nat.repr (bytesBEValue bs)).length - s) ++
           "." ++
           (Nat.repr (bytesBEValue bs)).drop ((Nat.repr (bytesBEValue bs)).length - s)
       else "0." ++ Nat.repr (bytesBEValue bs)) ∧
    (4 ≤ (Nat.repr (bytesBEValue bs)).length →
      processNumericValue (pg_b64_encode bs) (-1 : Int) true =
        if 4 < (Nat.repr (bytesBEValue bs)).length then
          (Nat.repr (bytesBEValue bs)).take ((Nat.repr (bytesBEValue bs)).length - 4) ++
            "." ++
            (Nat.repr (bytesBEValue bs)).drop ((Nat.repr (bytesBEValue bs)).length - 4)
        else "0." ++ Nat.repr (bytesBEValue bs)) ∧
    processDataByType
        { value := "AX0=", datatype := PgOid.numericOid, scale := 2,
          typemod := 0, timerep := TimeRep.undef } false =
      DecodeResult.value "3.81" := by
  have hfmt : ∀ t : Nat, 1 ≤ t → t ≤ (Nat.repr (bytesBEValue bs)).length →
      numericScaleFormat ((bytesBEValue bs : Nat) : Int) t =
        (if t < (Nat.repr (bytesBEValue bs)).length then
          (Nat.repr (bytesBEValue bs)).take ((Nat.repr (bytesBEValue bs)).length - t) ++
            "." ++
            (Nat.repr (bytesBEValue bs)).drop ((Nat.repr (bytesBEValue bs)).length - t)
        else "0." ++ Nat.repr (bytesBEValue bs)) := by
    intro t ht1 htle
    unfold numericScaleFormat
    simp only [Int_repr_natCast]
    split_ifs <;> first | rfl | (exfalso; omega)
  have henc := processNumericValue_encode bs h hlen hmsb
  refine ⟨?_, ?_, ?_⟩
  · rw [henc (s : Int) false, if_pos (by omega : (0 : Int) < (s : Int)),
      Int.toNat_natCast]
    exact hfmt s hs hd
  · intro h4
    rw [henc (-1 : Int) true, if_neg (by norm_num)]
    simp only [if_true]
    exact hfmt 4 (by norm_num) h4
  · decide

theorem numeric_decode_point_placement_witness :
    processNumericValue (pg_b64_encode [48, 57]) ((2 : Nat) : Int) false =
      "123.45" ∧
    processNumericValue (pg_b64_encode [48, 57]) (-1 : Int) true =
      "1.2345" := by
  have h := numeric_decode_point_placement [48, 57] 2 (by decide) (by decide)
    (by decide) (by decide) (by decide)
  exact ⟨h.1.trans (by decide), (h.2.1 (by decide)).trans (by decide)⟩

/-- C4: the supervisor's request handler applies a pause request only
when the state is Syncing (transitioning to Paused), a resume request
only when Paused (transitioning to Syncing), an offset-update request
only when Paused (transitioning to OffsetUpdate and back to Paused once
the new offset is persisted); every other requested transition is
ignored with a warning, and after handling any request the request slot
is reset to empty. -/
theorem request_interrupt_transitions (s : ShmConnInfo) (eng : EngineResults) :
    ((processRequestInterrupt s eng).shm.reqstate = ConnState.undef ∧
     (processRequestInterrupt s eng).shm.reqdata = "") ∧
    (s.reqstate = ConnState.paused → s.state = ConnState.syncing →
     eng.stopOk = true →
      (processRequestInterrupt s eng).shm.state = ConnState.paused ∧
      (processRequestInterrupt s eng).stateSets = [ConnState.paused]) ∧
    (s.reqstate = ConnState.syncing → s.state = ConnState.paused →
     eng.startOk = true →
      (processRequestInterrupt s eng).shm.state = ConnState.syncing ∧
      (processRequestInterrupt s eng).stateSets = [ConnState.syncing]) ∧
    (s.reqstate = ConnState.offsetUpdate → s.state = ConnState.paused →
     eng.setOffsetOk = true →
      (processRequestInterrupt s eng).stateSets =
        [ConnState.offsetUpdate, ConnState.paused] ∧
      (processRequestInterrupt s eng).shm.state = ConnState.paused ∧
      (processRequestInterrupt s eng).shm.offset = s.reqdata) ∧
    (s.reqstate = ConnState.paused → s.state ≠ ConnState.syncing →
      (processRequestInterrupt s eng).shm.state = s.state ∧
      (processRequestInterrupt s eng).shm.offset = s.offset ∧
      (processRequestInterrupt s eng).stateSets = [] ∧
      (processRequestInterrupt s eng).invalidWarned = true) ∧
    (s.reqstate = ConnState.syncing → s.state ≠ ConnState.paused →
      (processRequestInterrupt s eng).shm.state = s.state ∧
      (processRequestInterrupt s eng).shm.offset = s.offset ∧
      (processRequestInterrupt s eng).stateSets = [] ∧
      (processRequestInterrupt s eng).invalidWarned = true) ∧
    (s.reqstate = ConnState.offsetUpdate → s.state ≠ ConnState.paused →
      (processRequestInterrupt s eng).shm.state = s.state ∧
      (processRequestInterrupt s eng).shm.offset = s.offset ∧
      (processRequestInterrupt s eng).stateSets = [] ∧
      (processRequestInterrupt s eng).invalidWarned = true) ∧
    (s.reqstate ≠ ConnState.undef → s.reqstate ≠ ConnState.paused →
     s.reqstate ≠ ConnState.syncing → s.reqstate ≠ ConnState.offsetUpdate →
      (processRequestInterrupt s eng).shm.state = s.state ∧
      (processRequestInterrupt s eng).shm.offset = s.offset ∧
      (processRequestInterrupt s eng).stateSets = [] ∧
      (processRequestInterrupt s eng).invalidWarned = true) := by
  refine ⟨?_, ?_, ?_, ?_, ?_, ?_, ?_, ?_⟩
  · unfold processRequestInterrupt
    split_ifs <;> simp [reset_shm_request_state]
  · intro h1 h2 h3
    simp [processRequestInterrupt, reset_shm_request_state, h1, h2, h3]
  · intro h1 h2 h3
    simp [processRequestInterrupt, reset_shm_request_state, h1, h2, h3]
  · intro h1 h2 h3
    simp [processRequestInterrupt, reset_shm_request_state, h1, h2, h3]
  · intro h1 h2
    simp [processRequestInterrupt, reset_shm_request_state, h1, h2]
  · intro h1 h2
    simp [processRequestInterrupt, reset_shm_request_state, h1, h2]
  · intro h1 h2
    simp [processRequestInterrupt, reset_shm_request_state, h1, h2]
  · intro h1 h2 h3 h4
    simp [processRequestInterrupt, reset_shm_request_state, h1, h2, h3, h4]

theorem request_interrupt_transitions_witness :
    (processRequestInterrupt
        { reqstate := ConnState.paused, reqdata := "req",
          state := ConnState.syncing, offset := "off" }
        { stopOk := true, startOk := true, setOffsetOk := true }).shm.state =
      ConnState.paused ∧
    (processRequestInterrupt
        { reqstate := ConnState.paused, reqdata := "req",
          state := ConnState.syncing, offset := "off" }
        { stopOk := true, startOk := true, setOffsetOk := true }).shm.reqstate =
      ConnState.undef ∧
    (processRequestInterrupt
        { reqstate := ConnState.offsetUpdate, reqdata := "newoff",
          state := ConnState.paused, offset := "off" }
        { stopOk := true, startOk := true, setOffsetOk := true }).shm.offset =
      "newoff" := by
  have h1 := request_interrupt_transitions
    { reqstate := ConnState.paused, reqdata := "req",
      state := ConnState.syncing, offset := "off" }
    { stopOk := true, startOk := true, setOffsetOk := true }
  have h2 := request_interrupt_transitions
    { reqstate := ConnState.offsetUpdate, reqdata := "newoff",
      state := ConnState.paused, offset := "off" }
    { stopOk := true, startOk := true, setOffsetOk := true }
  exact ⟨(h1.2.1 rfl rfl rfl).1, h1.1.1, (h2.2.2.2.1 rfl rfl rfl).2.2⟩

/-- C5 (counterexample): the round trip already fails at `v = -2`,
`s = 2`: the encoding is the byte 0xFE (base64 "/g=="), and decoding it
with scale 2 yields "0.-2", not the decimal string -0.02. -/
theorem numeric_roundtrip_negative_cex :
    encodeBase64BigEndian (-2) = "/g==" ∧
    processNumericValue (encodeBase64BigEndian (-2)) 2 false = "0.-2" ∧
    "0.-2" ≠ "-0.02" := by
  decide

/-- C5 (amended): for every nonnegative integer `v < 2 ^ 63` and every
scale `s` not exceeding the decimal digit count of `v`, decoding the
base64 big-endian two's-complement encoding of `v` with scale `s`
yields exactly the decimal string of `v` with the decimal point placed
`s` digits from the right (no point for `s = 0`, a leading "0." when
`s` equals the digit count).  (Negative values are excluded by the
counterexample; scales beyond the digit count go through C's `%g`
double formatting, which prints exponent notation for small
magnitudes.) -/
theorem numeric_roundtrip_decimal_string (v s : Nat) (hv : v < 2 ^ 63)
    (hd : s ≤ (Nat.repr v).length) :
    processNumericValue (encodeBase64BigEndian (v : Int)) (s : Int) false =
      (if s = 0 then Nat.repr v
       else if s < (Nat.repr v).length then
         (Nat.repr v).take ((Nat.repr v).length - s) ++ "." ++
           (Nat.repr v).drop ((Nat.repr v).length - s)
       else "0." ++ Nat.repr v) := by
  have hdef : tcWidthNonneg v = tcWidthNonnegAux (15 + 1) v := rfl
  have hspec := tcWidthNonnegAux_spec 15 v (by
    have hle : (2 : Nat) ^ 63 ≤ 2 ^ (8 * 15 + 7) :=
      Nat.pow_le_pow_right (by norm_num) (by norm_num)
    omega)
  have hkpos : 0 < tcWidthNonneg v := by
    rw [hdef]
    exact hspec.1
  have hvk : v < 2 ^ (8 * tcWidthNonneg v - 1) := by
    rw [hdef]
    exact hspec.2
  have hk8 : tcWidthNonneg v ≤ 8 := by
    have h63 : v < 2 ^ (8 * 7 + 7) := by
      have he : (2 : Nat) ^ (8 * 7 + 7) = 2 ^ 63 := by norm_num
      omega
    rw [hdef]
    exact tcWidthNonnegAux_le 15 7 v (by norm_num) h63
  have hvlt : v < 256 ^ tcWidthNonneg v := by
    calc v < 2 ^ (8 * tcWidthNonneg v - 1) := hvk
      _ ≤ 2 ^ (8 * tcWidthNonneg v) :=
          Nat.pow_le_pow_right (by norm_num) (by omega)
      _ = 256 ^ tcWidthNonneg v := by
          rw [show (256 : Nat) = 2 ^ 8 by norm_num, ← pow_mul]
  have hbytes := beBytes_lt (tcWidthNonneg v) v
  have hlen8 : (beBytes (tcWidthNonneg v) v).length ≤ 8 := by
    rw [beBytes_length]
    exact hk8
  have hmsb : (beBytes (tcWidthNonneg v) v).headD 0 < 128 := by
    obtain ⟨w, hw⟩ : ∃ w, tcWidthNonneg v = w + 1 :=
      ⟨tcWidthNonneg v - 1, by omega⟩
    rw [hw, beBytes_headD w v (by rw [← hw]; exact hvlt)]
    rw [Nat.div_lt_iff_lt_mul (pow_pos (by norm_num) w)]
    calc v < 2 ^ (8 * tcWidthNonneg v - 1) := hvk
      _ = 128 * 256 ^ w := by
          have hexpo : 8 * tcWidthNonneg v - 1 = 7 + 8 * w := by omega
          rw [hexpo, pow_add, pow_mul]
          norm_num
  have hfold : bytesBEValue (beBytes (tcWidthNonneg v) v) = v :=
    bytesBEValue_beBytes _ v hvlt
  rw [encodeBase64BigEndian, twosComplementBytes_nonneg v,
    processNumericValue_encode _ hbytes hlen8 hmsb, hfold]
  by_cases h0 : s = 0
  · subst h0
    simp
  · rw [if_pos (by omega : (0 : Int) < (s : Int)), if_neg h0,
      Int.toNat_natCast]
    unfold numericScaleFormat
    simp only [Int_repr_natCast]
    split_ifs <;> first | rfl | (exfalso; omega)

theorem numeric_roundtrip_decimal_string_witness :
    processNumericValue (encodeBase64BigEndian ((381 : Nat) : Int))
        ((2 : Nat) : Int) false = "3.81" ∧
    encodeBase64BigEndian ((381 : Nat) : Int) = "AX0=" := by
  have h := numeric_roundtrip_decimal_string 381 2 (by norm_num) (by decide)
  exact ⟨h.trans (by decide), by decide⟩

/-- C6 (counterexample): for the Bit value base64 "BQ==" (byte 0x05)
with typemod 8 under quoting, the decoder emits `'b00000101'` — an
opening single quote, then the letter b — not the claimed
`b'00000101'` (letter b followed by the single-quoted digit string):
the source writes `strcat(tmp, "'b")` (replication_agent.c:2745). -/
theorem bit_quote_wrap_order_cex :
    processDataByType
        { value := "BQ==", datatype := PgOid.bitOid, scale := 0,
          typemod := 8, timerep := TimeRep.undef } true =
      DecodeResult.value "'b00000101'" ∧
    "'b00000101'" ≠ "b'00000101'" := by
  decide

/-- C6 (amended): for every Bit/Varbit value the decoder base64-decodes
the raw value to a byte array, reverses it, converts it to a binary
digit string, trims leading zeros, left-pads with zeros up to `typemod`
digits, and when quoting is requested wraps the digits as `'b...'` (an
opening single quote, the letter b, the digits, a closing single
quote); without quoting the digit string is returned bare. -/
theorem bit_decode_quoting (bs : List Nat) (tm : Nat)
    (h : ∀ b ∈ bs, b < 256) (htm : tm < 2 ^ 64) :
    processBitValue (pg_b64_encode bs) (tm : Int) true =
      "'b" ++ bitDigitsOf bs tm ++ "'" ∧
    processBitValue (pg_b64_encode bs) (tm : Int) false = bitDigitsOf bs tm := by
  have hmod : (((tm : Nat) : Int) % (2 ^ 64 : Int)).toNat = tm := by
    rw [Int.emod_eq_of_lt (Int.natCast_nonneg tm) (by exact_mod_cast htm)]
    exact Int.toNat_natCast tm
  constructor <;>
  · simp only [processBitValue, bitDigitsOf]
    rw [pg_b64_roundtrip bs h, hmod]
    simp [reverse_byte_array, prepend_zeros]

theorem bit_decode_quoting_witness :
    processBitValue (pg_b64_encode [5]) ((8 : Nat) : Int) true =
      "'b00000101'" ∧
    processBitValue (pg_b64_encode [5]) ((8 : Nat) : Int) false =
      "00000101" := by
  have h := bit_decode_quoting [5] 8 (by decide) (by norm_num)
  exact ⟨h.1.trans (by decide), h.2.trans (by decide)⟩

/-- C7 (counterexample): 1707000000000 milliseconds since the epoch is
2024-02-03T22:40:00 UTC, so the decoder emits
`'2024-02-03T22:40:00.000000'`; the claimed literal
`'2024-02-03T23:00:00.000000'` is not what the code produces (nor the
correct UTC reading of that instant). -/
theorem timestamp_ms_scenario_cex :
    processDataByType
        { value := "1707000000000", datatype := PgOid.timestampOid,
          scale := -1, typemod := 3, timerep := TimeRep.timestamp } true =
      DecodeResult.value "'2024-02-03T22:40:00.000000'" ∧
    DecodeResult.value "'2024-02-03T22:40:00.000000'" ≠
      DecodeResult.value "'2024-02-03T23:00:00.000000'" := by
  decide

/-- C7 (amended): decoding a Timestamp value with raw_value
"1707000000000", time representation milliseconds-since-epoch, and
typemod 3 under quoting produces `'2024-02-03T22:40:00.000000'`: the
value splits into 1707000000 seconds plus a zero remainder, formatted
`YYYY-MM-DDTHH:MM:SS.ffffff` with microsecond precision because
typemod > 0. -/
theorem timestamp_ms_scenario_decode :
    processDataByType
        { value := "1707000000000", datatype := PgOid.timestampOid,
          scale := -1, typemod := 3, timerep := TimeRep.timestamp } true =
      DecodeResult.value "'2024-02-03T22:40:00.000000'" ∧
    processDataByType
        { value := "1707000000000", datatype := PgOid.timestampOid,
          scale := -1, typemod := 0, timerep := TimeRep.timestamp } true =
      DecodeResult.value "'2024-02-03T22:40:00'" := by
  decide

/-- C8: when no live destination row matches the before-image (by
primary-key/identity index when one exists, else by sequential scan
over the full before-image), `synchdb_handle_update` reports "tuple to
update not found" as a non-fatal event: the table is unchanged, the
transaction still commits, the return code is -1, and the execute step
of `fc_processDBZChangeEvent` puts the connector state back to Syncing
so processing continues. -/
theorem update_miss_nonfatal (pkCols : Option (List Nat))
    (table : List TupleRow) (before afterRow : TupleRow)
    (h : locateOldTuple pkCols table before = none) :
    synchdb_handle_update pkCols table before afterRow =
      { table := table, ret := -1, committed := true,
        warning := some "tuple to update not found" } ∧
    fc_executeDMLStep (synchdb_handle_update pkCols table before afterRow).ret =
      (ConnState.syncing, -1) := by
  have h1 : synchdb_handle_update pkCols table before afterRow =
      { table := table, ret := -1, committed := true,
        warning := some "tuple to update not found" } := by
    unfold synchdb_handle_update
    rw [h]
  refine ⟨h1, ?_⟩
  rw [h1]
  rfl

theorem update_miss_nonfatal_witness :
    synchdb_handle_update none [] ["1", "x"] ["1", "y"] =
      { table := [], ret := -1, committed := true,
        warning := some "tuple to update not found" } ∧
    fc_executeDMLStep (-1) = (ConnState.syncing, -1) := by
  have h := update_miss_nonfatal none [] ["1", "x"] ["1", "y"] (by decide)
  exact ⟨h.1, h.2⟩

/-- C9: `synchdb_start_engine_bgw` rejects with an invalid-parameter
error every call in which the hostname, username, password, destination
database, or connector-type argument is empty, or the port is 0 or
greater than 65535; an empty source database or table list is not an
error and is replaced by the literal string "null" in the worker's
connection info. -/
theorem start_engine_bgw_validation (a : StartEngineArgs) :
    ((synchdb_start_engine_bgw a).isOk = true ↔
      (a.hostname ≠ "" ∧ ¬(a.port = 0 ∨ 65535 < a.port) ∧ a.user ≠ "" ∧
       a.pwd ≠ "" ∧ a.dst_db ≠ "" ∧ a.connector ≠ "")) ∧
    (∀ ci : ConnectionInfo, synchdb_start_engine_bgw a = Except.ok ci →
      ci.src_db = (if a.src_db = "" then "null" else a.src_db) ∧
      ci.table = (if a.table = "" then "null" else a.table)) := by
  unfold synchdb_start_engine_bgw
  split_ifs with h1 h2 h3 h4 h5 h6 <;>
    simp_all [Except.isOk, Except.toBool]

theorem start_engine_bgw_validation_witness :
    (synchdb_start_engine_bgw
        { hostname := "h", port := 3306, user := "u", pwd := "p",
          src_db := "", dst_db := "db", table := "", connector := "mysql"
        }).isOk = true ∧
    (synchdb_start_engine_bgw
        { hostname := "", port := 3306, user := "u", pwd := "p",
          src_db := "s", dst_db := "db", table := "t", connector := "mysql"
        }).isOk = false ∧
    synchdb_start_engine_bgw
        { hostname := "h", port := 3306, user := "u", pwd := "p",
          src_db := "", dst_db := "db", table := "", connector := "mysql" } =
      Except.ok
        { hostname := "h", port := 3306, user := "u", pwd := "p",
          src_db := "null", dst_db := "db", table := "null" } := by
  have h := start_engine_bgw_validation
    { hostname := "h", port := 3306, user := "u", pwd := "p",
      src_db := "", dst_db := "db", table := "", connector := "mysql" }
  refine ⟨h.1.mpr (by decide), rfl, rfl⟩

/-- C10: a column value whose raw string is empty is treated exactly
like the literal NULL: regardless of destination type and of quoting,
`processDataByType` returns the C NULL pointer, `convert2PGDML` emits
the SQL literal `null`, the tuple field is stored as "NULL", and the
tuple handlers set the slot's null flag for it. -/
theorem empty_value_no_value (cv : DbzColVal) (q : Bool) (h : cv.value = "") :
    processDataByType cv q = DecodeResult.noValue ∧
    processDataByType { cv with value := "NULL" } q = DecodeResult.noValue ∧
    dmlSqlLiteral cv = some "null" ∧
    dmlTupleValue cv = some "NULL" ∧
    tupleSlotIsNull "NULL" = true := by
  have hmain : ∀ q2 : Bool, processDataByType cv q2 = DecodeResult.noValue := by
    intro q2
    unfold processDataByType
    rw [if_pos h]
  have hnull : processDataByType { cv with value := "NULL" } q =
      DecodeResult.noValue := by
    have hne : ({ cv with value := "NULL" } : DbzColVal).value ≠ "" := by
      show ("NULL" : String) ≠ ""
      decide
    have heq : strcaseEq ({ cv with value := "NULL" } : DbzColVal).value
        "NULL" = true := by
      show strcaseEq "NULL" "NULL" = true
      decide
    unfold processDataByType
    rw [if_neg hne, if_pos heq]
  refine ⟨hmain q, hnull, ?_, ?_, by decide⟩
  · unfold dmlSqlLiteral
    rw [hmain true]
  · unfold dmlTupleValue
    rw [hmain false]

theorem empty_value_no_value_witness :
    processDataByType
        { value := "", datatype := PgOid.int4Oid, scale := -1,
          typemod := -1, timerep := TimeRep.undef } true =
      DecodeResult.noValue ∧
    dmlSqlLiteral
        { value := "", datatype := PgOid.byteaOid, scale := -1,
          typemod := -1, timerep := TimeRep.undef } = some "null" ∧
    dmlTupleValue
        { value := "", datatype := PgOid.timestampOid, scale := -1,
          typemod := -1, timerep := TimeRep.undef } = some "NULL" := by
  have h1 := empty_value_no_value
    { value := "", datatype := PgOid.int4Oid, scale := -1,
      typemod := -1, timerep := TimeRep.undef } true rfl
  have h2 := empty_value_no_value
    { value := "", datatype := PgOid.byteaOid, scale := -1,
      typemod := -1, timerep := TimeRep.undef } true rfl
  have h3 := empty_value_no_value
    { value := "", datatype := PgOid.timestampOid, scale := -1,
      typemod := -1, timerep := TimeRep.undef } true rfl
  exact ⟨h1.1, h2.2.2.1, h3.2.2.2.1⟩

end SynchDB
